import Mathlib

/-
Verification of the upload-progress controller (UploadPage) and the media
playback controller (VideoTag) of this repository.

The embedding is shallow: each event handler of the source becomes a pure
function from the component's state to a new state, paired with the list of
externally visible actions it performs (socket emits and disconnects,
notifications, navigation, media-element play/pause commands, the call to
the createVideo API client).  React `useState` setters become record
updates; the `socketRef` mutable ref becomes an `Option Nat` field (the
`Nat` identifies the connected socket).  The asynchronous `createVideo`
call is modelled by passing its eventual outcome (`Except`) as an argument
to the handler that awaits it.
-/

namespace Pik

/-! ## Upload page (UploadPage, src/unnamed/part_000)

State held by the component: `socketRef` (a `useRef`), and the `useState`
pairs `isLoading`, `videoFile`, `uploadProgress`, `compressionProgress`,
`showProgressBox`. -/

/-- The `compressionProgress` state value: `{ percent, eta }`. -/
structure CompressionProgress where
  percent : Nat
  eta : String
deriving DecidableEq, Repr

/-- The part of a selected `File` that the upload page inspects. -/
structure VideoFile where
  type : String
  size : Nat
deriving DecidableEq, Repr

/-- Component state of `UploadPage`. -/
structure UploadState where
  socketRef : Option Nat
  isLoading : Bool
  videoFile : Option VideoFile
  uploadProgress : Nat
  compressionProgress : CompressionProgress
  showProgressBox : Bool
deriving DecidableEq, Repr

/-- Externally visible actions performed by the upload-page handlers. -/
inductive UEvent
  | emit (sock : Nat) (signal : String)
  | disconnect (sock : Nat)
  | notify (msg : String)
  | createVideoCall
  | navigate (path : String)
deriving DecidableEq, Repr

/-- A progress event delivered on the open channel; the payload type depends
on the kind, matching `progressFn(type, progress)` where `progress` is a
number for `"upload"` and a `{ percent, eta }` record for `"compress"`. -/
inductive ProgressEvent
  | upload (n : Nat)
  | compress (c : CompressionProgress)
deriving DecidableEq, Repr

/-- `progressFn`: `if (type === "upload") setUploadProgress(progress); else
setCompressionProgress(progress);` -/
def progressFn (s : UploadState) : ProgressEvent → UploadState
  | .upload n => { s with uploadProgress := n }
  | .compress c => { s with compressionProgress := c }

/-- `cancelFn`: if a socket is held, emit `"cancelCompression"` on it,
disconnect it and null the ref; then hide the progress box, clear the
loading flag and reset both progress values. -/
def cancelFn (s : UploadState) : UploadState × List UEvent :=
  let step :=
    match s.socketRef with
    | some sock =>
        ({ s with socketRef := none },
          [UEvent.emit sock "cancelCompression", UEvent.disconnect sock])
    | none => (s, ([] : List UEvent))
  ({ step.1 with
      showProgressBox := false
      isLoading := false
      uploadProgress := 0
      compressionProgress := ⟨0, ""⟩ }, step.2)

/-- `completeFn`: `navigate("/video/" + videoId)`; nothing else. -/
def completeFn (s : UploadState) (videoId : String) :
    UploadState × List UEvent :=
  (s, [UEvent.navigate ("/video/" ++ videoId)])

/-- `errFn`: dispatch an error notification
`"Compression error: " + err.message`, then run `cancelFn`. -/
def errFn (s : UploadState) (msg : String) : UploadState × List UEvent :=
  let rest := cancelFn s
  (rest.1, UEvent.notify ("Compression error: " ++ msg) :: rest.2)

/-- `onSubmit`: set `isLoading`; reject with `"Invalid video"` when the file
is absent or not `video/mp4`, with `"File too large"` when it exceeds
`videoSizeLimit` (external constant, taken as a parameter); otherwise show
the progress box and await `createVideo`, storing the socket on success.
The `catch` clause clears `isLoading` and surfaces the error message. -/
def onSubmit (videoSizeLimit : Nat) (s0 : UploadState)
    (createVideoResult : Except String Nat) : UploadState × List UEvent :=
  let s := { s0 with isLoading := true }
  match s.videoFile with
  | none => ({ s with isLoading := false }, [UEvent.notify "Invalid video"])
  | some f =>
    if f.type ≠ "video/mp4" then
      ({ s with isLoading := false }, [UEvent.notify "Invalid video"])
    else if f.size > videoSizeLimit then
      ({ s with isLoading := false }, [UEvent.notify "File too large"])
    else
      let s1 := { s with showProgressBox := true }
      match createVideoResult with
      | .ok sock =>
          ({ s1 with socketRef := some sock }, [UEvent.createVideoCall])
      | .error msg =>
          ({ s1 with isLoading := false },
            [UEvent.createVideoCall, UEvent.notify msg])

/-- Cumulative states produced by a sequence of progress events. -/
def runProgress (s : UploadState) : List ProgressEvent → List UploadState
  | [] => []
  | e :: es =>
    let s1 := progressFn s e
    s1 :: runProgress s1 es

/-- The upload percentages carried by a sequence of progress events. -/
def uploadVals : List ProgressEvent → List Nat
  | [] => []
  | ProgressEvent.upload n :: es => n :: uploadVals es
  | ProgressEvent.compress _ :: es => uploadVals es

/-- The compression percentages carried by a sequence of progress events. -/
def compressVals : List ProgressEvent → List Nat
  | [] => []
  | ProgressEvent.upload _ :: es => compressVals es
  | ProgressEvent.compress c :: es => c.percent :: compressVals es

/-- The initial component state: no socket, not loading, no file selected,
zero progress, progress box hidden. -/
def st0 : UploadState :=
  { socketRef := none
    isLoading := false
    videoFile := none
    uploadProgress := 0
    compressionProgress := ⟨0, ""⟩
    showProgressBox := false }

/-! ## Media playback controller (VideoTag, src/src/pc/components/video-tag/index.tsx)

The underlying `HTMLVideoElement` is modelled by the fields `vidPaused` and
`vidCurrentTime`; the component's React state `isPlaying` and `curTime` and
its ref `wasPlaying` are further fields.  The element's `play()` / `pause()`
methods flip `vidPaused` and fire the `play` / `pause` events, whose
registered listeners set the `isPlaying` mirror. -/

/-- A command issued to the media element. -/
inductive VidCmd
  | play
  | pause
deriving DecidableEq, Repr

/-- State of one `VideoTag` instance together with its media element. -/
structure VideoTagState where
  vidPaused : Bool
  vidCurrentTime : ℚ
  vidMuted : Bool
  isPlaying : Bool
  wasPlaying : Bool
  curTime : ℚ
  isMuted : Bool
deriving DecidableEq, Repr

/-- Effect of `vid.pause()`: the element becomes paused and its `pause`
event runs the registered `toggleIsPlayingOff` listener. -/
def vidPause (s : VideoTagState) : VideoTagState :=
  { s with vidPaused := true, isPlaying := false }

/-- Effect of `vid.play()`: the element leaves the paused state and its
`play` event runs the registered `toggleIsPlayingOn` listener. -/
def vidPlay (s : VideoTagState) : VideoTagState :=
  { s with vidPaused := false, isPlaying := true }

/-- The mouse-event kinds the seek bar wires to `handleSeek`. -/
inductive SeekEvt
  | mousedown
  | mouseup
deriving DecidableEq, Repr

/-- `handleSeek`: on `mousedown`, record `isPlaying` into the `wasPlaying`
ref and pause the element; otherwise (the `mouseup` wiring) play the
element when `wasPlaying` holds. -/
def handleSeek (s : VideoTagState) : SeekEvt → VideoTagState × List VidCmd
  | .mousedown => (vidPause { s with wasPlaying := s.isPlaying }, [VidCmd.pause])
  | .mouseup => if s.wasPlaying then (vidPlay s, [VidCmd.play]) else (s, [])

/-- `changeTime`: assign the pointer-derived value to
`videoRef.current.currentTime` and mirror it into `curTime`. -/
def changeTime (s : VideoTagState) (duration : ℚ) : VideoTagState :=
  { s with vidCurrentTime := duration, curTime := duration }

/-- The element-level `click` listener: `if (!vid.paused) vid.pause();`. -/
def handleClick (s : VideoTagState) : VideoTagState × List VidCmd :=
  if !s.vidPaused then (vidPause s, [VidCmd.pause]) else (s, [])

/-- `handlePlayPause`: inspect `videoRef.current.paused` and issue the
opposite command. -/
def handlePlayPause (s : VideoTagState) : VideoTagState × List VidCmd :=
  if s.vidPaused then (vidPlay s, [VidCmd.play]) else (vidPause s, [VidCmd.pause])

/-- `handleMute`: assign `!isMuted` to the element's `muted` flag and flip
the `isMuted` state. -/
def handleMute (s : VideoTagState) : VideoTagState :=
  { s with vidMuted := !s.isMuted, isMuted := !s.isMuted }

/-! ## Concrete states used by witnesses and counterexamples -/

/-- A state with a wrong-type file selected. -/
def stBad : UploadState := { st0 with videoFile := some ⟨"video/webm", 10⟩ }

/-- A mid-session state with socket `7` connected. -/
def stOpen : UploadState :=
  { st0 with
      socketRef := some 7
      isLoading := true
      uploadProgress := 40
      compressionProgress := ⟨10, "2 min"⟩
      showProgressBox := true }

/-- A state with a valid 50-byte `video/mp4` file selected. -/
def stGood : UploadState := { st0 with videoFile := some ⟨"video/mp4", 50⟩ }

/-- A monotone interleaved progress-event sequence. -/
def evs8 : List ProgressEvent :=
  [ProgressEvent.upload 10, ProgressEvent.compress ⟨5, "3 min"⟩,
    ProgressEvent.upload 60, ProgressEvent.compress ⟨40, "1 min"⟩]

/-! ## Theorems -/

/-- C1: for every selected file whose type is not `"video/mp4"` or whose
size exceeds `videoSizeLimit`, `onSubmit` rejects before any network
activity: `createVideo` is not called, an error notification is surfaced,
and `uploadProgress`, `compressionProgress`, `showProgressBox` and the
socket ref are left unchanged. -/
theorem C1_invalid_file_rejects_locally (limit : Nat) (s : UploadState)
    (f : VideoFile) (res : Except String Nat) (hf : s.videoFile = some f)
    (hbad : f.type ≠ "video/mp4" ∨ f.size > limit) :
    UEvent.createVideoCall ∉ (onSubmit limit s res).2 ∧
    (∃ m, UEvent.notify m ∈ (onSubmit limit s res).2) ∧
    ((onSubmit limit s res).1).uploadProgress = s.uploadProgress ∧
    ((onSubmit limit s res).1).compressionProgress = s.compressionProgress ∧
    ((onSubmit limit s res).1).showProgressBox = s.showProgressBox ∧
    ((onSubmit limit s res).1).socketRef = s.socketRef := by
  rcases hbad with h | h
  · simp [onSubmit, hf, h]
  · by_cases ht : f.type = "video/mp4"
    · simp [onSubmit, hf, ht, h]
    · simp [onSubmit, hf, ht]

/-- C1, instantiated: a 10-byte `"video/webm"` file against limit 100. -/
theorem C1_invalid_file_rejects_locally_witness :
    stBad.videoFile = some ⟨"video/webm", 10⟩ ∧
    (("video/webm" : String) ≠ "video/mp4" ∨ (10 : Nat) > 100) ∧
    (UEvent.createVideoCall ∉ (onSubmit 100 stBad (Except.ok 5)).2 ∧
      (∃ m, UEvent.notify m ∈ (onSubmit 100 stBad (Except.ok 5)).2) ∧
      ((onSubmit 100 stBad (Except.ok 5)).1).uploadProgress
          = stBad.uploadProgress ∧
      ((onSubmit 100 stBad (Except.ok 5)).1).compressionProgress
          = stBad.compressionProgress ∧
      ((onSubmit 100 stBad (Except.ok 5)).1).showProgressBox
          = stBad.showProgressBox ∧
      ((onSubmit 100 stBad (Except.ok 5)).1).socketRef = stBad.socketRef) :=
  ⟨rfl, Or.inl (by decide),
    C1_invalid_file_rejects_locally 100 stBad ⟨"video/webm", 10⟩
      (Except.ok 5) rfl (Or.inl (by decide))⟩

/-- C2: whenever a channel is open, cancel emits `"cancelCompression"` on
it, disconnects it, nulls the ref, resets `uploadProgress` to `0` and
`compressionProgress` to `⟨0, ""⟩`, hides the progress box and clears the
loading flag. -/
theorem C2_cancel_with_open_channel (s : UploadState) (sock : Nat)
    (h : s.socketRef = some sock) :
    cancelFn s =
      ({ s with
          socketRef := none
          isLoading := false
          uploadProgress := 0
          compressionProgress := ⟨0, ""⟩
          showProgressBox := false },
        [UEvent.emit sock "cancelCompression", UEvent.disconnect sock]) := by
  simp [cancelFn, h]

/-- C2, instantiated: cancelling the mid-session state `stOpen`. -/
theorem C2_cancel_with_open_channel_witness :
    stOpen.socketRef = some 7 ∧
    cancelFn stOpen =
      ({ stOpen with
          socketRef := none
          isLoading := false
          uploadProgress := 0
          compressionProgress := ⟨0, ""⟩
          showProgressBox := false },
        [UEvent.emit 7 "cancelCompression", UEvent.disconnect 7]) :=
  ⟨rfl, C2_cancel_with_open_channel stOpen 7 rfl⟩

/-- C3: cancel is idempotent and total: a second cancel changes nothing and
performs no action, and after any cancel the progress state is exactly
`uploadProgress = 0` and `compressionProgress = ⟨0, ""⟩`. -/
theorem C3_cancel_idempotent_total (s : UploadState) :
    (cancelFn (cancelFn s).1).1 = (cancelFn s).1 ∧
    (cancelFn (cancelFn s).1).2 = [] ∧
    ((cancelFn s).1).uploadProgress = 0 ∧
    ((cancelFn s).1).compressionProgress = ⟨0, ""⟩ := by
  cases h : s.socketRef <;> simp [cancelFn, h]

/-- C4: the error handler surfaces the error message as a notification and
then produces exactly the state of cancellation: socket ref null, both
progress values reset, progress box hidden. -/
theorem C4_error_same_cleanup_as_cancel (s : UploadState) (msg : String) :
    (errFn s msg).1 = (cancelFn s).1 ∧
    (errFn s msg).2
        = UEvent.notify ("Compression error: " ++ msg) :: (cancelFn s).2 ∧
    ((errFn s msg).1).socketRef = none ∧
    ((errFn s msg).1).uploadProgress = 0 ∧
    ((errFn s msg).1).compressionProgress = ⟨0, ""⟩ ∧
    ((errFn s msg).1).showProgressBox = false := by
  cases h : s.socketRef <;> simp [errFn, cancelFn, h]

/-- C5 as stated is false: completion does not null the channel reference;
`completeFn` only navigates, leaving `socketRef` untouched. -/
theorem C5_completion_keeps_channel_counterexample :
    ((completeFn stOpen "v1").1).socketRef ≠ none := by
  decide

/-- C5 amended: a successful submit sets the channel reference and cancel
and error null it, but completion leaves the whole session state, the
reference included, unchanged — the channel is released by the ensuing
navigation/unmount, not by the controller. -/
theorem C5_channel_lifecycle (s : UploadState) (msg vid : String)
    (limit sock : Nat) (f : VideoFile) (hf : s.videoFile = some f)
    (hty : f.type = "video/mp4") (hsz : f.size ≤ limit) :
    ((cancelFn s).1).socketRef = none ∧
    ((errFn s msg).1).socketRef = none ∧
    (completeFn s vid).1 = s ∧
    ((onSubmit limit s (Except.ok sock)).1).socketRef = some sock := by
  have h2 : ¬ f.size > limit := not_lt.mpr hsz
  refine ⟨?_, ?_, rfl, ?_⟩
  · cases h : s.socketRef <;> simp [cancelFn, h]
  · cases h : s.socketRef <;> simp [errFn, cancelFn, h]
  · simp [onSubmit, hf, hty, h2]

/-- C5 amended, instantiated: the state `stGood` with limit 100. -/
theorem C5_channel_lifecycle_witness :
    stGood.videoFile = some ⟨"video/mp4", 50⟩ ∧
    ("video/mp4" : String) = "video/mp4" ∧
    (50 : Nat) ≤ 100 ∧
    (((cancelFn stGood).1).socketRef = none ∧
      ((errFn stGood "boom").1).socketRef = none ∧
      (completeFn stGood "v1").1 = stGood ∧
      ((onSubmit 100 stGood (Except.ok 3)).1).socketRef = some 3) :=
  ⟨rfl, rfl, by decide,
    C5_channel_lifecycle stGood "boom" "v1" 100 3 ⟨"video/mp4", 50⟩ rfl rfl
      (by decide)⟩

/-- C6: when `createVideo` fails on a valid submission, the catch clause
clears `isLoading`, surfaces the error and the socket ref stays null — but
`showProgressBox` stays `true`, because it is set before the call and the
catch clause never resets it, so the session does not return to the idle
presentation. -/
theorem C6_transport_failure_leaves_progress_box :
    onSubmit 100 stGood (Except.error "Network error")
      = ({ stGood with isLoading := false, showProgressBox := true },
          [UEvent.createVideoCall, UEvent.notify "Network error"]) := by
  decide

/-- C7: a seek gesture records whether playback was active and pauses the
element at mousedown, sets both the element time and its mirror at each
commit, and on release resumes playback exactly when it was active at
seek-start. -/
theorem C7_seek_gesture (s : VideoTagState) (t : ℚ) :
    ((handleSeek s SeekEvt.mousedown).1).wasPlaying = s.isPlaying ∧
    ((handleSeek s SeekEvt.mousedown).1).vidPaused = true ∧
    (changeTime ((handleSeek s SeekEvt.mousedown).1) t).vidCurrentTime = t ∧
    (changeTime ((handleSeek s SeekEvt.mousedown).1) t).curTime = t ∧
    ((handleSeek (changeTime ((handleSeek s SeekEvt.mousedown).1) t)
        SeekEvt.mouseup).1).vidPaused = !s.isPlaying ∧
    ((handleSeek (changeTime ((handleSeek s SeekEvt.mousedown).1) t)
        SeekEvt.mouseup).1).isPlaying = s.isPlaying := by
  cases h : s.isPlaying <;>
    simp [handleSeek, changeTime, vidPause, vidPlay, h]

/-- Auxiliary: the stored upload trajectory is a `≤`-chain whenever the
received upload values, prefixed with the current stored value, are. -/
theorem runProgress_upload_chain :
    ∀ (evs : List ProgressEvent) (s : UploadState),
      List.Chain' (· ≤ ·) (s.uploadProgress :: uploadVals evs) →
      List.Chain' (· ≤ ·)
        (s.uploadProgress ::
          (runProgress s evs).map UploadState.uploadProgress) := by
  intro evs
  induction evs with
  | nil => intro s _; simp [runProgress]
  | cons e es ih =>
    intro s h
    cases e with
    | upload n =>
      simp only [uploadVals] at h
      rw [List.chain'_cons] at h
      simp only [runProgress, List.map, progressFn]
      rw [List.chain'_cons]
      exact ⟨h.1, ih { s with uploadProgress := n } h.2⟩
    | compress c =>
      simp only [uploadVals] at h
      simp only [runProgress, List.map, progressFn]
      rw [List.chain'_cons]
      exact ⟨le_refl _, ih { s with compressionProgress := c } h⟩

/-- Auxiliary: the stored compression-percent trajectory is a `≤`-chain
whenever the received compression percents, prefixed with the current
stored value, are. -/
theorem runProgress_compress_chain :
    ∀ (evs : List ProgressEvent) (s : UploadState),
      List.Chain' (· ≤ ·) (s.compressionProgress.percent :: compressVals evs) →
      List.Chain' (· ≤ ·)
        (s.compressionProgress.percent ::
          (runProgress s evs).map fun t => t.compressionProgress.percent) := by
  intro evs
  induction evs with
  | nil => intro s _; simp [runProgress]
  | cons e es ih =>
    intro s h
    cases e with
    | upload n =>
      simp only [compressVals] at h
      simp only [runProgress, List.map, progressFn]
      rw [List.chain'_cons]
      exact ⟨le_refl _, ih { s with uploadProgress := n } h⟩
    | compress c =>
      simp only [compressVals] at h
      rw [List.chain'_cons] at h
      simp only [runProgress, List.map, progressFn]
      rw [List.chain'_cons]
      exact ⟨h.1, ih { s with compressionProgress := c } h.2⟩

/-- C8 as stated is false: the progress handler stores received values
verbatim, so a decreasing received sequence gives a decreasing stored
sequence — here 50 then 10. -/
theorem C8_decreasing_events_counterexample :
    ¬ List.Chain' (· ≤ ·)
      ((runProgress st0
          [ProgressEvent.upload 50, ProgressEvent.upload 10]).map
        UploadState.uploadProgress) := by
  norm_num [runProgress, progressFn, List.chain'_cons]

/-- C8 amended: the handler stores each received value verbatim, so the
stored `uploadProgress` and `compressionProgress.percent` trajectories are
monotonically non-decreasing exactly under the spec's assumption that the
values received for each kind (starting from the current stored values)
are non-decreasing. -/
theorem C8_stored_monotone_when_received_monotone (s : UploadState)
    (evs : List ProgressEvent)
    (hu : List.Chain' (· ≤ ·) (s.uploadProgress :: uploadVals evs))
    (hc : List.Chain' (· ≤ ·)
      (s.compressionProgress.percent :: compressVals evs)) :
    List.Chain' (· ≤ ·)
      ((s :: runProgress s evs).map UploadState.uploadProgress) ∧
    List.Chain' (· ≤ ·)
      ((s :: runProgress s evs).map fun t => t.compressionProgress.percent) := by
  constructor
  · simpa using runProgress_upload_chain evs s hu
  · simpa using runProgress_compress_chain evs s hc

/-- C8 amended, instantiated: the monotone interleaved sequence `evs8`. -/
theorem C8_stored_monotone_when_received_monotone_witness :
    List.Chain' (· ≤ ·) (st0.uploadProgress :: uploadVals evs8) ∧
    List.Chain' (· ≤ ·)
      (st0.compressionProgress.percent :: compressVals evs8) ∧
    (List.Chain' (· ≤ ·)
        ((st0 :: runProgress st0 evs8).map UploadState.uploadProgress) ∧
      List.Chain' (· ≤ ·)
        ((st0 :: runProgress st0 evs8).map
          fun t => t.compressionProgress.percent)) :=
  ⟨by simp [st0, evs8, uploadVals, List.chain'_cons],
    by simp [st0, evs8, compressVals, List.chain'_cons],
    C8_stored_monotone_when_received_monotone st0 evs8
      (by simp [st0, evs8, uploadVals, List.chain'_cons])
      (by simp [st0, evs8, compressVals, List.chain'_cons])⟩

/-- Auxiliary: any field that a single progress event never touches is
constant along every event sequence. -/
theorem runProgress_const_field {α : Type} (f : UploadState → α)
    (hf : ∀ s e, f (progressFn s e) = f s) :
    ∀ (evs : List ProgressEvent) (s : UploadState),
      (runProgress s evs).map f = List.replicate evs.length (f s) := by
  intro evs
  induction evs with
  | nil => intro s; rfl
  | cons e es ih =>
    intro s
    simp [runProgress, List.replicate_succ, ih, hf]

/-- C9: a progress event updates only the field of its kind — an upload
event sets `uploadProgress` and leaves `compressionProgress` unchanged and
vice versa — and along any interleaving of the two kinds `socketRef`,
`isLoading`, `showProgressBox` and `videoFile` are never modified. -/
theorem C9_progress_frame (s : UploadState) (n : Nat)
    (c : CompressionProgress) (evs : List ProgressEvent) :
    (progressFn s (ProgressEvent.upload n)).uploadProgress = n ∧
    (progressFn s (ProgressEvent.upload n)).compressionProgress
        = s.compressionProgress ∧
    (progressFn s (ProgressEvent.compress c)).compressionProgress = c ∧
    (progressFn s (ProgressEvent.compress c)).uploadProgress
        = s.uploadProgress ∧
    (runProgress s evs).map UploadState.socketRef
        = List.replicate evs.length s.socketRef ∧
    (runProgress s evs).map UploadState.isLoading
        = List.replicate evs.length s.isLoading ∧
    (runProgress s evs).map UploadState.showProgressBox
        = List.replicate evs.length s.showProgressBox ∧
    (runProgress s evs).map UploadState.videoFile
        = List.replicate evs.length s.videoFile := by
  refine ⟨rfl, rfl, rfl, rfl, ?_, ?_, ?_, ?_⟩ <;>
    exact runProgress_const_field _ (fun s e => by cases e <;> rfl) evs s

/-- C10: clicking the video surface pauses a playing resource, issues no
command to a paused one, and never starts playback. -/
theorem C10_click_never_starts_playback (s : VideoTagState) :
    handleClick s
        = (if s.vidPaused then (s, []) else (vidPause s, [VidCmd.pause])) ∧
    ((handleClick s).1).vidPaused = true ∧
    VidCmd.play ∉ (handleClick s).2 := by
  cases h : s.vidPaused <;> simp [handleClick, vidPause, h]

end Pik
